import Mathlib

/-!
Shallow embedding of the model-testing core of an API key tester
(source file: openai_api_tester.py). Provider behaviour is modelled as
explicit data: an exception value records which exception classes it
belongs to, and each outbound call returns either a value or a raised
exception (the `Except` type). All definitions follow the source; the
single exception is the definition marked as following the words of the
specification, used for a refinement comparison.
-/

namespace ApiTester

/-- An exception raised by the provider client. The Boolean fields record
membership in the exception classes that the source matches with its
except clauses; `detail` is the string rendering of the exception
(`str(e)` in the source). -/
structure Exc where
  isAuthenticationError : Bool
  isPermissionDeniedError : Bool
  isNotFoundError : Bool
  isRateLimitError : Bool
  isAPIError : Bool
  detail : String
deriving DecidableEq

/-- Embedding of `test_single_model` (lines 18-42): the chat-completion call
either completes or raises an exception, and the except chain is checked in
source order, first match wins. -/
def test_single_model (resp : Except Exc Unit) : Bool × String :=
  match resp with
  | .ok _ => (true, "Successfully connected")
  | .error e =>
    if e.isAuthenticationError then (false, "Authentication failed - Invalid API key")
    else if e.isPermissionDeniedError then (false, "Permission denied - No access to this model")
    else if e.isNotFoundError then (false, "Model not found")
    else if e.isRateLimitError then (false, "Rate limit exceeded")
    else if e.isAPIError then (false, "API error: " ++ e.detail)
    else (false, "Unexpected error: " ++ e.detail)

/-- The response categories of the table in the specification, one per arm of
the except chain of `test_single_model`. -/
inductive ErrorCategory where
  | completed
  | authentication
  | permission
  | notFoundModel
  | rateLimited
  | apiFault
  | unexpected
deriving DecidableEq

/-- The category of a provider response, assigned by checking the exception
class flags in the same first-match-wins order as the source except chain. -/
def categorize (resp : Except Exc Unit) : ErrorCategory :=
  match resp with
  | .ok _ => .completed
  | .error e =>
    if e.isAuthenticationError then .authentication
    else if e.isPermissionDeniedError then .permission
    else if e.isNotFoundError then .notFoundModel
    else if e.isRateLimitError then .rateLimited
    else if e.isAPIError then .apiFault
    else .unexpected

/-- The detail string carried by a provider response. -/
def respDetail : Except Exc Unit → String
  | .ok _ => ""
  | .error e => e.detail

/-- The outcome table of the specification: one outcome per category, the
message templates for the last two categories taking the detail string. -/
def outcomeOfCategory : ErrorCategory → String → Bool × String
  | .completed, _ => (true, "Successfully connected")
  | .authentication, _ => (false, "Authentication failed - Invalid API key")
  | .permission, _ => (false, "Permission denied - No access to this model")
  | .notFoundModel, _ => (false, "Model not found")
  | .rateLimited, _ => (false, "Rate limit exceeded")
  | .apiFault, d => (false, "API error: " ++ d)
  | .unexpected, d => (false, "Unexpected error: " ++ d)

/-- The first two characters of the message of each category; used to show
that messages of distinct categories never coincide. -/
def msgTag : ErrorCategory → List Char
  | .completed => ['S', 'u']
  | .authentication => ['A', 'u']
  | .permission => ['P', 'e']
  | .notFoundModel => ['M', 'o']
  | .rateLimited => ['R', 'a']
  | .apiFault => ['A', 'P']
  | .unexpected => ['U', 'n']

theorem outcome_msg_take2 (c : ErrorCategory) (d : String) :
    (outcomeOfCategory c d).2.data.take 2 = msgTag c := by
  obtain ⟨l⟩ := d
  cases c <;> rfl

theorem msgTag_ne : ∀ c₁ c₂ : ErrorCategory, c₁ ≠ c₂ → msgTag c₁ ≠ msgTag c₂ := by
  intro c₁ c₂ h
  cases c₁ <;> cases c₂ <;> first
    | exact absurd rfl h
    | decide

theorem ne_of_take2 {s t : String} (h : s.data.take 2 ≠ t.data.take 2) : s ≠ t := by
  intro he
  exact h (by rw [he])

theorem probe_eq_outcome (resp : Except Exc Unit) :
    test_single_model resp = outcomeOfCategory (categorize resp) (respDetail resp) := by
  match resp with
  | .ok u => rfl
  | .error e =>
    obtain ⟨a, p, n, r, api, dt⟩ := e
    cases a <;> cases p <;> cases n <;> cases r <;> cases api <;> rfl

/-- Claim C1: the outcome of a single-model probe is determined solely by the
error category of the provider response (with the detail string filled into
the two templated messages), the category being assigned with the fixed
first-match-wins precedence authentication, then permission, then not-found,
then rate-limit, then generic API error, then unexpected error; the outcome
for each category is the one of the table; and no two distinct categories
share a message. -/
theorem C1_probe_outcome_by_category :
    (∀ resp : Except Exc Unit,
      test_single_model resp = outcomeOfCategory (categorize resp) (respDetail resp))
    ∧ (∀ e : Exc, e.isAuthenticationError = true → categorize (.error e) = .authentication)
    ∧ (∀ e : Exc, e.isAuthenticationError = false → e.isPermissionDeniedError = true →
        categorize (.error e) = .permission)
    ∧ (∀ e : Exc, e.isAuthenticationError = false → e.isPermissionDeniedError = false →
        e.isNotFoundError = true → categorize (.error e) = .notFoundModel)
    ∧ (∀ e : Exc, e.isAuthenticationError = false → e.isPermissionDeniedError = false →
        e.isNotFoundError = false → e.isRateLimitError = true →
        categorize (.error e) = .rateLimited)
    ∧ (∀ e : Exc, e.isAuthenticationError = false → e.isPermissionDeniedError = false →
        e.isNotFoundError = false → e.isRateLimitError = false → e.isAPIError = true →
        categorize (.error e) = .apiFault)
    ∧ (∀ e : Exc, e.isAuthenticationError = false → e.isPermissionDeniedError = false →
        e.isNotFoundError = false → e.isRateLimitError = false → e.isAPIError = false →
        categorize (.error e) = .unexpected)
    ∧ (∀ d, outcomeOfCategory .completed d = (true, "Successfully connected"))
    ∧ (∀ d, outcomeOfCategory .authentication d = (false, "Authentication failed - Invalid API key"))
    ∧ (∀ d, outcomeOfCategory .permission d = (false, "Permission denied - No access to this model"))
    ∧ (∀ d, outcomeOfCategory .notFoundModel d = (false, "Model not found"))
    ∧ (∀ d, outcomeOfCategory .rateLimited d = (false, "Rate limit exceeded"))
    ∧ (∀ d, outcomeOfCategory .apiFault d = (false, "API error: " ++ d))
    ∧ (∀ d, outcomeOfCategory .unexpected d = (false, "Unexpected error: " ++ d))
    ∧ (∀ (c₁ c₂ : ErrorCategory) (d₁ d₂ : String), c₁ ≠ c₂ →
        (outcomeOfCategory c₁ d₁).2 ≠ (outcomeOfCategory c₂ d₂).2) := by
  refine ⟨?_, ?_, ?_, ?_, ?_, ?_, ?_, ?_, ?_, ?_, ?_, ?_, ?_, ?_, ?_⟩
  · exact probe_eq_outcome
  · intro e h; simp [categorize, h]
  · intro e h₁ h₂; simp [categorize, h₁, h₂]
  · intro e h₁ h₂ h₃; simp [categorize, h₁, h₂, h₃]
  · intro e h₁ h₂ h₃ h₄; simp [categorize, h₁, h₂, h₃, h₄]
  · intro e h₁ h₂ h₃ h₄ h₅; simp [categorize, h₁, h₂, h₃, h₄, h₅]
  · intro e h₁ h₂ h₃ h₄ h₅; simp [categorize, h₁, h₂, h₃, h₄, h₅]
  · intro d; rfl
  · intro d; rfl
  · intro d; rfl
  · intro d; rfl
  · intro d; rfl
  · intro d; rfl
  · intro d; rfl
  · intro c₁ c₂ d₁ d₂ h
    apply ne_of_take2
    rw [outcome_msg_take2 c₁ d₁, outcome_msg_take2 c₂ d₂]
    exact msgTag_ne c₁ c₂ h

/-- Witness for C1 at concrete inputs: the authentication and rate-limit
categories have distinct messages. -/
theorem C1_witness :
    (outcomeOfCategory .authentication "x").2 ≠ (outcomeOfCategory .rateLimited "y").2 :=
  C1_probe_outcome_by_category.2.2.2.2.2.2.2.2.2.2.2.2.2.2
    .authentication .rateLimited "x" "y" (by decide)

/-- Boolean test that the first list is a leading segment of the second,
comparing characters one by one. -/
def listPrefixOf : List Char → List Char → Bool
  | [], _ => true
  | _ :: _, [] => false
  | a :: rest, b :: bs => (a == b) && listPrefixOf rest bs

/-- Boolean test that the needle occurs contiguously somewhere in the
haystack; embeds the Python substring operator on strings. -/
def listContainsSub (needle : List Char) : List Char → Bool
  | [] => listPrefixOf needle []
  | b :: bs => listPrefixOf needle (b :: bs) || listContainsSub needle bs

/-- Substring test on strings, haystack first. -/
def strContains (haystack needle : String) : Bool :=
  listContainsSub needle.data haystack.data

/-- Character-wise lowercasing, embedding the Python lower method on the
ASCII identifiers this program handles. -/
def strLower (s : String) : String :=
  String.mk (s.data.map Char.toLower)

/-- The filter of `get_available_models` (lines 51-56): the identifier must
contain gpt case-insensitively, and must contain one of the two family
markers as a case-sensitive substring (the Python membership operator used
for the variants does not lowercase its operands). -/
def gpt_filter (id : String) : Bool :=
  strContains (strLower id) "gpt"
    && (strContains id "gpt-4" || strContains id "gpt-3.5-turbo")

/-- Lexicographic order on character lists, comparing code points position by
position; embeds the Python ordering on strings. -/
def lexLe : List Char → List Char → Bool
  | [], _ => true
  | _ :: _, [] => false
  | a :: l₁, b :: l₂ => if a = b then lexLe l₁ l₂ else decide (a < b)

/-- Lexicographic ascending order on strings. -/
def strLe (a b : String) : Bool :=
  lexLe a.data b.data

theorem lexLe_total : ∀ a b : List Char, lexLe a b = true ∨ lexLe b a = true
  | [], _ => Or.inl rfl
  | _ :: _, [] => Or.inr rfl
  | a :: l₁, b :: l₂ => by
    by_cases hab : a = b
    · subst hab
      rcases lexLe_total l₁ l₂ with h | h
      · exact Or.inl (by simp [lexLe, h])
      · exact Or.inr (by simp [lexLe, h])
    · rcases lt_or_gt_of_ne hab with h | h
      · exact Or.inl (by simp [lexLe, hab, h])
      · exact Or.inr (by simp [lexLe, Ne.symm hab, h])

theorem lexLe_trans :
    ∀ a b c : List Char, lexLe a b = true → lexLe b c = true → lexLe a c = true
  | [], _, _, _, _ => rfl
  | _ :: _, [], _, h, _ => by simp [lexLe] at h
  | _ :: _, _ :: _, [], _, h => by simp [lexLe] at h
  | a :: l₁, b :: l₂, c :: l₃, h₁, h₂ => by
    by_cases hab : a = b <;> by_cases hbc : b = c
    · subst hab; subst hbc
      simp only [lexLe, if_pos rfl] at h₁ h₂ ⊢
      exact lexLe_trans _ _ _ h₁ h₂
    · subst hab
      simp only [lexLe, if_pos rfl, if_neg hbc, decide_eq_true_eq] at h₂ ⊢
      exact h₂
    · subst hbc
      simp only [lexLe, if_neg hab, decide_eq_true_eq] at h₁ ⊢
      exact h₁
    · simp only [lexLe, if_neg hab, if_neg hbc, decide_eq_true_eq] at h₁ h₂
      have hac : a < c := lt_trans h₁ h₂
      simp only [lexLe, if_neg (ne_of_lt hac), decide_eq_true_eq]
      exact hac

instance : IsTotal String (fun a b => strLe a b = true) :=
  ⟨fun a b => lexLe_total a.data b.data⟩

instance : IsTrans String (fun a b => strLe a b = true) :=
  ⟨fun a b c => lexLe_trans a.data b.data c.data⟩

/-- Sorting in ascending lexicographic string order, embedding the Python
sorted builtin and the list sort method. -/
def sortedList (l : List String) : List String :=
  l.insertionSort (fun a b => strLe a b = true)

/-- Embedding of `get_available_models` (lines 44-60): the enumeration call
either returns the listed model identifiers or raises; on any raised
exception the function returns the empty list. -/
def get_available_models (listResult : Except Exc (List String)) : List String :=
  match listResult with
  | .ok models => sortedList (models.filter gpt_filter)
  | .error _ => []

/-- The behaviour of the provider as observed through the three outbound
operations the source performs: client construction, model enumeration and
the per-model probe. Each either returns a value or raises an exception. -/
structure Provider where
  createClient : Except Exc Unit
  listModels : Except Exc (List String)
  probe : String → Except Exc Unit

/-- The fixed default model list (lines 68-76). -/
def default_models : List String :=
  ["gpt-4o", "gpt-4o-mini", "gpt-4", "gpt-4-turbo", "gpt-4-32k",
   "gpt-3.5-turbo", "gpt-3.5-turbo-16k"]

/-- A result set: the insertion-ordered mapping from model identifier to
probe outcome that `test_api_key` accumulates. -/
abbrev ResultSet := List (String × (Bool × String))

/-- Embedding of `test_api_key` (lines 62-106). The whole body runs under a
try block; the only operation that can raise inside it is client
construction (`get_available_models` and `test_single_model` catch every
exception themselves), and the two except clauses are checked in source
order. The codomain is `Except Exc ResultSet` so that an uncaught exception
would be observable by the caller as an error value. -/
def test_api_key (pr : Provider) : Except Exc ResultSet :=
  match pr.createClient with
  | .ok _ =>
    let available_models := get_available_models pr.listModels
    let models_to_test := sortedList (default_models ++ available_models).dedup
    .ok (models_to_test.map (fun m => (m, test_single_model (pr.probe m))))
  | .error e =>
    if e.isAuthenticationError then
      .ok (default_models.map (fun m => (m, (false, "Invalid API key"))))
    else
      .ok (default_models.map (fun m => (m, (false, "Client error: " ++ e.detail))))

/-- Embedding of the final summary classification (lines 172-177), returning
the headline of the banner the page shows. -/
def summary_message (successes total : Nat) : String :=
  if successes = total then "API Key is valid"
  else if successes > 0 then "API Key is partially valid"
  else "API Key failed"

theorem test_api_key_ok (pr : Provider) (u : Unit) (h : pr.createClient = .ok u) :
    test_api_key pr =
      .ok ((sortedList (default_models ++ get_available_models pr.listModels).dedup).map
        (fun m => (m, test_single_model (pr.probe m)))) := by
  unfold test_api_key
  rw [h]

theorem test_api_key_auth (pr : Provider) (e : Exc) (h : pr.createClient = .error e)
    (ha : e.isAuthenticationError = true) :
    test_api_key pr =
      .ok (default_models.map (fun m => (m, (false, "Invalid API key")))) := by
  unfold test_api_key
  rw [h]
  simp [ha]

theorem test_api_key_gen (pr : Provider) (e : Exc) (h : pr.createClient = .error e)
    (ha : e.isAuthenticationError = false) :
    test_api_key pr =
      .ok (default_models.map (fun m => (m, (false, "Client error: " ++ e.detail)))) := by
  unfold test_api_key
  rw [h]
  simp [ha]

theorem map_fst_pair (f : String → Bool × String) :
    ∀ l : List String, (l.map (fun m => (m, f m))).map Prod.fst = l
  | [] => rfl
  | x :: xs => by simp [map_fst_pair f xs]

theorem default_map_ne_nil (f : String → Bool × String) :
    default_models.map (fun m => (m, f m)) ≠ [] := by
  simp [default_models]

theorem api_msg_take2 (d : String) :
    ("API error: " ++ d).data.take 2 = ['A', 'P'] := by
  obtain ⟨l⟩ := d
  rfl

theorem unexpected_msg_take2 (d : String) :
    ("Unexpected error: " ++ d).data.take 2 = ['U', 'n'] := by
  obtain ⟨l⟩ := d
  rfl

theorem client_msg_take2 (d : String) :
    ("Client error: " ++ d).data.take 2 = ['C', 'l'] := by
  obtain ⟨l⟩ := d
  rfl

theorem api_msg_ne_success (d : String) :
    "API error: " ++ d ≠ "Successfully connected" :=
  ne_of_take2 (by rw [api_msg_take2]; decide)

theorem unexpected_msg_ne_success (d : String) :
    "Unexpected error: " ++ d ≠ "Successfully connected" :=
  ne_of_take2 (by rw [unexpected_msg_take2]; decide)

theorem client_msg_ne_success (d : String) :
    "Client error: " ++ d ≠ "Successfully connected" :=
  ne_of_take2 (by rw [client_msg_take2]; decide)

theorem outcome_success_iff (c : ErrorCategory) (d : String) :
    (outcomeOfCategory c d).1 = true ↔ (outcomeOfCategory c d).2 = "Successfully connected" := by
  cases c with
  | completed => exact iff_of_true rfl rfl
  | authentication => exact iff_of_false (by simp [outcomeOfCategory]) (by simp [outcomeOfCategory])
  | permission => exact iff_of_false (by simp [outcomeOfCategory]) (by simp [outcomeOfCategory])
  | notFoundModel => exact iff_of_false (by simp [outcomeOfCategory]) (by simp [outcomeOfCategory])
  | rateLimited => exact iff_of_false (by simp [outcomeOfCategory]) (by simp [outcomeOfCategory])
  | apiFault => exact iff_of_false (by simp [outcomeOfCategory]) (api_msg_ne_success d)
  | unexpected => exact iff_of_false (by simp [outcomeOfCategory]) (unexpected_msg_ne_success d)

/-- Claim C2: when client construction succeeds, the key list of the result
set equals the lexicographically sorted deduplicated union of the default
model list and the filtered dynamic model list, the keys are free of
duplicates and sorted ascending (so probes execute, and results accumulate,
in lexicographic order), and every identifier submitted for probing appears
exactly once regardless of its probe outcome. -/
theorem C2_resolved_keys (pr : Provider) (u : Unit) (h : pr.createClient = .ok u) :
    ∃ rs : ResultSet, test_api_key pr = .ok rs
      ∧ rs.map Prod.fst =
          sortedList (default_models ++ get_available_models pr.listModels).dedup
      ∧ (rs.map Prod.fst).Nodup
      ∧ List.Pairwise (fun a b => strLe a b = true) (rs.map Prod.fst)
      ∧ ∀ m ∈ default_models ++ get_available_models pr.listModels,
          (rs.map Prod.fst).count m = 1 := by
  refine ⟨_, test_api_key_ok pr u h, ?_⟩
  rw [map_fst_pair]
  have hnd : (sortedList (default_models ++ get_available_models pr.listModels).dedup).Nodup :=
    (List.perm_insertionSort _ _).nodup_iff.mpr (List.nodup_dedup _)
  refine ⟨rfl, hnd, List.sorted_insertionSort _ _, ?_⟩
  intro m hm
  exact List.count_eq_one_of_mem hnd
    ((List.mem_insertionSort _).mpr (List.mem_dedup.mpr hm))

/-- A provider for which every outbound operation succeeds and the dynamic
enumeration returns no identifiers. -/
def okProvider : Provider :=
  ⟨.ok (), .ok [], fun _ => .ok ()⟩

/-- Witness for C2 at the concrete all-success provider. -/
theorem C2_witness :
    ∃ rs : ResultSet, test_api_key okProvider = .ok rs
      ∧ rs.map Prod.fst =
          sortedList (default_models ++ get_available_models okProvider.listModels).dedup
      ∧ (rs.map Prod.fst).Nodup
      ∧ List.Pairwise (fun a b => strLe a b = true) (rs.map Prod.fst)
      ∧ ∀ m ∈ default_models ++ get_available_models okProvider.listModels,
          (rs.map Prod.fst).count m = 1 :=
  C2_resolved_keys okProvider () rfl

/-- Claim C3: when client construction fails with an authentication-class
error, the result set contains exactly the 7 default model identifiers, every
entry failed with the message Invalid API key; the dynamic list plays no part
(the provider enumeration and probe behaviour are arbitrary here). -/
theorem C3_auth_short_circuit (pr : Provider) (e : Exc)
    (h : pr.createClient = .error e) (ha : e.isAuthenticationError = true) :
    ∃ rs : ResultSet, test_api_key pr = .ok rs
      ∧ rs.map Prod.fst = default_models
      ∧ rs.length = 7
      ∧ ∀ x ∈ rs, x.2 = (false, "Invalid API key") := by
  refine ⟨_, test_api_key_auth pr e h ha, map_fst_pair _ _, rfl, ?_⟩
  intro x hx
  rcases List.mem_map.mp hx with ⟨m, _, rfl⟩
  rfl

/-- An exception belonging to the authentication error class. -/
def authExc : Exc :=
  ⟨true, false, false, false, true, "401 unauthorized"⟩

/-- An exception belonging to none of the matched provider error classes. -/
def plainExc : Exc :=
  ⟨false, false, false, false, false, "connection reset"⟩

/-- A provider whose client construction raises an authentication error. -/
def authFailProvider : Provider :=
  ⟨.error authExc, .ok [], fun _ => .ok ()⟩

/-- A provider whose client construction raises a non-authentication error. -/
def genFailProvider : Provider :=
  ⟨.error plainExc, .ok [], fun _ => .ok ()⟩

/-- Witness for C3 at the concrete authentication-failure provider. -/
theorem C3_witness :
    ∃ rs : ResultSet, test_api_key authFailProvider = .ok rs
      ∧ rs.map Prod.fst = default_models
      ∧ rs.length = 7
      ∧ ∀ x ∈ rs, x.2 = (false, "Invalid API key") :=
  C3_auth_short_circuit authFailProvider authExc rfl rfl

/-- Claim C5: when client construction fails with a non-authentication error
carrying detail d, the result set contains exactly the default model
identifiers, every entry failed with the message Client error: d. -/
theorem C5_client_error_short_circuit (pr : Provider) (e : Exc)
    (h : pr.createClient = .error e) (ha : e.isAuthenticationError = false) :
    ∃ rs : ResultSet, test_api_key pr = .ok rs
      ∧ rs.map Prod.fst = default_models
      ∧ rs.length = 7
      ∧ ∀ x ∈ rs, x.2 = (false, "Client error: " ++ e.detail) := by
  refine ⟨_, test_api_key_gen pr e h ha, map_fst_pair _ _, rfl, ?_⟩
  intro x hx
  rcases List.mem_map.mp hx with ⟨m, _, rfl⟩
  rfl

/-- Witness for C5 at the concrete construction-failure provider. -/
theorem C5_witness :
    ∃ rs : ResultSet, test_api_key genFailProvider = .ok rs
      ∧ rs.map Prod.fst = default_models
      ∧ rs.length = 7
      ∧ ∀ x ∈ rs, x.2 = (false, "Client error: " ++ plainExc.detail) :=
  C5_client_error_short_circuit genFailProvider plainExc rfl rfl

/-- Claim C6: when dynamic model enumeration raises (any exception), the
dynamic set resolves to the empty list and the run proceeds to probe
normally, so the result set still contains at least every default model
identifier. -/
theorem C6_enumeration_failure (pr : Provider) (e : Exc) (u : Unit)
    (hc : pr.createClient = .ok u) (hl : pr.listModels = .error e) :
    get_available_models pr.listModels = []
      ∧ ∃ rs : ResultSet, test_api_key pr = .ok rs
        ∧ ∀ m ∈ default_models, m ∈ rs.map Prod.fst := by
  have hdyn : get_available_models pr.listModels = [] := by
    rw [hl]
    rfl
  refine ⟨hdyn, _, test_api_key_ok pr u hc, ?_⟩
  intro m hm
  rw [map_fst_pair]
  exact (List.mem_insertionSort _).mpr (List.mem_dedup.mpr (List.mem_append_left _ hm))

/-- A provider whose dynamic model enumeration raises. -/
def enumFailProvider : Provider :=
  ⟨.ok (), .error plainExc, fun _ => .ok ()⟩

/-- Witness for C6 at the concrete enumeration-failure provider. -/
theorem C6_witness :
    get_available_models enumFailProvider.listModels = []
      ∧ ∃ rs : ResultSet, test_api_key enumFailProvider = .ok rs
        ∧ ∀ m ∈ default_models, m ∈ rs.map Prod.fst :=
  C6_enumeration_failure enumFailProvider plainExc () rfl rfl

/-- Claim C7: whatever the provider behaviour, the orchestrator returns an
ok value (no exception reaches the caller), the returned result set is
non-empty, and every entry in it is either the conversion of one probe
response or one of the two short-circuit fallback outcomes. -/
theorem C7_no_exception_escapes (pr : Provider) :
    ∃ rs : ResultSet, test_api_key pr = .ok rs
      ∧ rs ≠ []
      ∧ ∀ x ∈ rs,
          (∃ resp, x.2 = test_single_model resp)
          ∨ x.2 = (false, "Invalid API key")
          ∨ ∃ d, x.2 = (false, "Client error: " ++ d) := by
  rcases hc : pr.createClient with e | u
  case ok =>
    refine ⟨_, test_api_key_ok pr u hc, ?_, ?_⟩
    · have hmem : ("gpt-4o" : String) ∈
          sortedList (default_models ++ get_available_models pr.listModels).dedup :=
        (List.mem_insertionSort _).mpr (List.mem_dedup.mpr (List.mem_append_left _ (by decide)))
      exact List.ne_nil_of_mem (List.mem_map_of_mem _ hmem)
    · intro x hx
      rcases List.mem_map.mp hx with ⟨m, _, rfl⟩
      exact Or.inl ⟨pr.probe m, rfl⟩
  case error =>
    by_cases ha : e.isAuthenticationError = true
    · refine ⟨_, test_api_key_auth pr e hc ha, default_map_ne_nil _, ?_⟩
      intro x hx
      rcases List.mem_map.mp hx with ⟨m, _, rfl⟩
      exact Or.inr (Or.inl rfl)
    · have ha' : e.isAuthenticationError = false := by
        cases hb : e.isAuthenticationError
        · rfl
        · exact absurd hb ha
      refine ⟨_, test_api_key_gen pr e hc ha', default_map_ne_nil _, ?_⟩
      intro x hx
      rcases List.mem_map.mp hx with ⟨m, _, rfl⟩
      exact Or.inr (Or.inr ⟨e.detail, rfl⟩)

/-- Witness for C7 at the concrete all-success provider. -/
theorem C7_witness :
    ∃ rs : ResultSet, test_api_key okProvider = .ok rs
      ∧ rs ≠ []
      ∧ ∀ x ∈ rs,
          (∃ resp, x.2 = test_single_model resp)
          ∨ x.2 = (false, "Invalid API key")
          ∨ ∃ d, x.2 = (false, "Client error: " ++ d) :=
  C7_no_exception_escapes okProvider

/-- Claim C9: in every result set the orchestrator returns, on every code
path, an entry carries the success flag exactly when its message is
Successfully connected. -/
theorem C9_flag_iff_message (pr : Provider) (rs : ResultSet)
    (h : test_api_key pr = .ok rs) :
    ∀ x ∈ rs, (x.2.1 = true ↔ x.2.2 = "Successfully connected") := by
  intro x hx
  rcases hc : pr.createClient with e | u
  case ok =>
    rw [test_api_key_ok pr u hc] at h
    injection h with h
    subst h
    rcases List.mem_map.mp hx with ⟨m, _, rfl⟩
    rw [probe_eq_outcome]
    exact outcome_success_iff _ _
  case error =>
    by_cases ha : e.isAuthenticationError = true
    · rw [test_api_key_auth pr e hc ha] at h
      injection h with h
      subst h
      rcases List.mem_map.mp hx with ⟨m, _, rfl⟩
      exact iff_of_false (by simp) (by simp)
    · have ha' : e.isAuthenticationError = false := by
        cases hb : e.isAuthenticationError
        · rfl
        · exact absurd hb ha
      rw [test_api_key_gen pr e hc ha'] at h
      injection h with h
      subst h
      rcases List.mem_map.mp hx with ⟨m, _, rfl⟩
      exact iff_of_false (by simp) (client_msg_ne_success e.detail)

/-- Witness for C9: one concrete entry of the result set of the concrete
all-success provider. -/
theorem C9_witness :
    (("gpt-4o", (true, "Successfully connected")) : String × (Bool × String)).2.1 = true
      ↔ (("gpt-4o", (true, "Successfully connected")) : String × (Bool × String)).2.2 =
          "Successfully connected" :=
  C9_flag_iff_message okProvider
    (["gpt-3.5-turbo", "gpt-3.5-turbo-16k", "gpt-4", "gpt-4-32k", "gpt-4-turbo",
      "gpt-4o", "gpt-4o-mini"].map (fun m => (m, (true, "Successfully connected"))))
    (by rfl)
    ("gpt-4o", (true, "Successfully connected"))
    (by decide)

/-- Claim C10: whatever the provider behaviour, the result set returned by
the orchestrator contains all 7 default model identifiers as keys, and is
therefore never empty, on every code path. -/
theorem C10_defaults_always_present (pr : Provider) :
    ∃ rs : ResultSet, test_api_key pr = .ok rs
      ∧ (∀ m ∈ default_models, m ∈ rs.map Prod.fst)
      ∧ default_models.length = 7
      ∧ rs ≠ [] := by
  rcases hc : pr.createClient with e | u
  case ok =>
    refine ⟨_, test_api_key_ok pr u hc, ?_, rfl, ?_⟩
    · intro m hm
      rw [map_fst_pair]
      exact (List.mem_insertionSort _).mpr (List.mem_dedup.mpr (List.mem_append_left _ hm))
    · have hmem : ("gpt-4o" : String) ∈
          sortedList (default_models ++ get_available_models pr.listModels).dedup :=
        (List.mem_insertionSort _).mpr (List.mem_dedup.mpr (List.mem_append_left _ (by decide)))
      exact List.ne_nil_of_mem (List.mem_map_of_mem _ hmem)
  case error =>
    by_cases ha : e.isAuthenticationError = true
    · refine ⟨_, test_api_key_auth pr e hc ha, ?_, rfl, default_map_ne_nil _⟩
      intro m hm
      rw [map_fst_pair]
      exact hm
    · have ha' : e.isAuthenticationError = false := by
        cases hb : e.isAuthenticationError
        · rfl
        · exact absurd hb ha
      refine ⟨_, test_api_key_gen pr e hc ha', ?_, rfl, default_map_ne_nil _⟩
      intro m hm
      rw [map_fst_pair]
      exact hm

/-- Witness for C10 at the concrete all-success provider. -/
theorem C10_witness :
    ∃ rs : ResultSet, test_api_key okProvider = .ok rs
      ∧ (∀ m ∈ default_models, m ∈ rs.map Prod.fst)
      ∧ default_models.length = 7
      ∧ rs ≠ [] :=
  C10_defaults_always_present okProvider

/-- Definition following the words of the specification, for the refinement
comparison of claim C4: an identifier matches when it contains one of the two
family markers as a case-insensitive substring. -/
def spec_ci_marker_match (id : String) : Bool :=
  strContains (strLower id) (strLower "gpt-4")
    || strContains (strLower id) (strLower "gpt-3.5-turbo")

/-- Counterexample to claim C4 as stated: for the enumerated list consisting
of the single identifier GPT-4, that identifier contains the family marker
gpt-4 as a case-insensitive substring, yet the resolver excludes it and
resolves the dynamic set to the empty list, because the source checks the
family markers case-sensitively. -/
theorem C4_counterexample :
    spec_ci_marker_match "GPT-4" = true
      ∧ ("GPT-4" : String) ∈ (["GPT-4"] : List String)
      ∧ get_available_models (.ok ["GPT-4"]) = [] :=
  ⟨by decide, by decide, by decide⟩

/-- Claim C4 (amended): for every enumerated model list, the dynamic set
resolved by the model-list resolver consists of exactly those identifiers
that contain gpt as a case-insensitive substring and contain one of the two
fixed family markers, gpt-4 or gpt-3.5-turbo, as a case-sensitive
substring. -/
theorem C4_amended_filter (l : List String) (m : String) :
    m ∈ get_available_models (.ok l)
      ↔ m ∈ l ∧ (strContains (strLower m) "gpt"
          && (strContains m "gpt-4" || strContains m "gpt-3.5-turbo")) = true := by
  have hres : get_available_models (.ok l) = sortedList (l.filter gpt_filter) := rfl
  rw [hres]
  unfold sortedList
  rw [List.mem_insertionSort, List.mem_filter]
  exact Iff.rfl

/-- Claim C8: for successes and total with 0 < total and successes at most
total, the three summary bands are characterized by their messages, and are
mutually exclusive and exhaustive: all models accessible gives the fully
valid banner, some but not all gives the partially valid banner, and none
gives the failed banner. -/
theorem C8_summary_bands (s t : Nat) (ht : 0 < t) (hs : s ≤ t) :
    (summary_message s t = "API Key is valid" ↔ s = t)
    ∧ (summary_message s t = "API Key is partially valid" ↔ (0 < s ∧ s < t))
    ∧ (summary_message s t = "API Key failed" ↔ s = 0)
    ∧ (s = t ∨ (0 < s ∧ s < t) ∨ s = 0)
    ∧ ¬(s = t ∧ 0 < s ∧ s < t)
    ∧ ¬(s = t ∧ s = 0)
    ∧ ¬((0 < s ∧ s < t) ∧ s = 0) := by
  unfold summary_message
  split_ifs with h1 h2
  · exact ⟨iff_of_true rfl h1, iff_of_false (by decide) (by omega),
      iff_of_false (by decide) (by omega), Or.inl h1, by omega, by omega, by omega⟩
  · exact ⟨iff_of_false (by decide) h1, iff_of_true rfl ⟨h2, by omega⟩,
      iff_of_false (by decide) (by omega), Or.inr (Or.inl ⟨h2, by omega⟩),
      by omega, by omega, by omega⟩
  · exact ⟨iff_of_false (by decide) h1, iff_of_false (by decide) (by omega),
      iff_of_true rfl (by omega), Or.inr (Or.inr (by omega)),
      by omega, by omega, by omega⟩

/-- Witness for C8 at the concrete point one success out of two. -/
theorem C8_witness :
    summary_message 1 2 = "API Key is partially valid" ↔ (0 < 1 ∧ 1 < 2) :=
  (C8_summary_bands 1 2 (by decide) (by decide)).2.1

end ApiTester
